import Mathlib

/-!
Shallow embedding of `src/ol-print-layout-control.ts` (GIScience
ol-print-layout.control): the `PrintLayout` control's configuration state
(paper format, orientation, margins), its public setters and getters, the
print-box size computations, the scale-denominator computation, and the
render/attach lifecycle.

Numbers are modelled as rationals (`ℚ`); the only floating-point behaviour
the claims depend on is division by zero in `getPrintMapScaleDenominator`,
modelled explicitly by `JsNum`/`jsDiv` below.  DOM geometry and the host
map's projection machinery (OpenLayers `transformExtent`, `getDistance`,
`computeBbox`'s client rectangles) are external to the repository and are
modelled as an abstract environment `Env`.
-/

namespace OlPrint

/-- JS string `toUpperCase` restricted to per-character upper-casing
(as the source only ever feeds ASCII orientation/format names). -/
def jsToUpperCase (s : String) : String :=
  ⟨s.data.map Char.toUpper⟩

/-- `ORIENTATION = { PORTRAIT: 'portrait', LANDSCAPE: 'landscape' }`,
as a key/value list (JS `in` tests keys, `Object.values` lists values). -/
def ORIENTATION : List (String × String) :=
  [("PORTRAIT", "portrait"), ("LANDSCAPE", "landscape")]

/-- `PAPER_FORMAT = { A4: 'A4', ..., BROADSHEET: 'BROADSHEET' }`. -/
def PAPER_FORMAT : List (String × String) :=
  [("A4", "A4"), ("A3", "A3"), ("A2", "A2"), ("A1", "A1"), ("A0", "A0"),
   ("LETTER", "LETTER"), ("TABLOID", "TABLOID"), ("BROADSHEET", "BROADSHEET")]

/-- `const INCH2MM = 25.4`. -/
def INCH2MM : ℚ := 254 / 10

/-- `PAPER_SIZE`: paper dimensions in mm, keyed by format name; `none`
models a missing key (JS `undefined`). -/
def PAPER_SIZE (format : String) : Option (ℚ × ℚ) :=
  if format = "A4" then some (210, 297)
  else if format = "A3" then some (297, 420)
  else if format = "A2" then some (420, 594)
  else if format = "A1" then some (594, 841)
  else if format = "A0" then some (841, 1189)
  else if format = "LETTER" then some (85 / 10 * INCH2MM, 11 * INCH2MM)
  else if format = "TABLOID" then some (11 * INCH2MM, 17 * INCH2MM)
  else if format = "BROADSHEET" then some (17 * INCH2MM, 22 * INCH2MM)
  else none

/-- The margins record `{top, bottom, left, right}` (in cm). -/
structure Margins where
  top : ℚ
  bottom : ℚ
  left : ℚ
  right : ℚ
deriving DecidableEq, Repr

/-- An OpenLayers extent `[minX, minY, maxX, maxY]`. -/
abbrev Extent := ℚ × ℚ × ℚ × ℚ

/-- A JS number as produced by the division in
`getPrintMapScaleDenominator`: finite, `Infinity`, `-Infinity` or `NaN`. -/
inductive JsNum where
  | finite (q : ℚ)
  | posInf
  | negInf
  | nan
deriving DecidableEq, Repr

/-- IEEE-754 division as JS performs it, for finite rational operands:
division by zero yields a signed infinity (or `NaN` for `0/0`). -/
def jsDiv (a b : ℚ) : JsNum :=
  if b = 0 then
    if 0 < a then JsNum.posInf
    else if a < 0 then JsNum.negInf
    else JsNum.nan
  else JsNum.finite (a / b)

/-- The observable state of a `PrintLayout` instance: the property-bag
entries (`orientation`, `format`, `margins`, `bbox`), the held host-map
reference `_map`, the framework-managed `getMap()` result `attachedMap`
(host maps are identified by a `Nat` token, standing for JS object
identity), and counters for the listeners registered on the host
(`view.on('change')` and `map.on('change:size')`). -/
structure State where
  orientation : String
  format : String
  margins : Margins
  bboxStored : Option Extent
  _map : Option Nat
  attachedMap : Option Nat
  viewListeners : Nat
  sizeListeners : Nat
deriving DecidableEq, Repr

/-- External world: what `computeBbox` reads from the DOM and the host
map's pixel→coordinate transform, `transformExtent` (EPSG:3857→4326), and
`getDistance` (haversine) from OpenLayers.  These are not repository code,
so they are abstract parameters of the embedding. -/
structure Env where
  computeBboxResult : Option Extent
  transformExtent : Extent → Extent
  getDistance : ℚ × ℚ → ℚ × ℚ → ℚ

/-- `computeBbox`: `null` without a host map, otherwise the extent derived
from the DOM rectangles and the pixel→coordinate transform (abstracted
into `Env`). -/
def computeBbox (env : Env) (s : State) : Option Extent :=
  if s.attachedMap = none then none else env.computeBboxResult

/-- `handleBboxChange`: store `computeBbox()` under the `bbox` property
(the `changed()` notification carries no state). -/
def handleBboxChange (env : Env) (s : State) : State :=
  { s with bboxStored := computeBbox env s }

/-- `Options`: the constructor's optional configuration record. -/
structure Options where
  margins : Option Margins := none
  format : Option String := none
  orientation : Option String := none

/-- JS `x || d` for an optional string: the default is used when the value
is absent or falsy (the empty string). -/
def jsOrDefault (o : Option String) (d : String) : String :=
  match o with
  | none => d
  | some s => if s = "" then d else s

/-- The constructor: stores `options.orientation || ORIENTATION.PORTRAIT`,
`options.format || PAPER_FORMAT.A4` and
`options.margins || {top: 2, bottom: 2, left: 2, right: 2}` directly via
`this.set` — note: no validation and no clamping here.  The control starts
without a host map and with no listeners registered. -/
def mkPrintLayout (opts : Options) : State :=
  { orientation := jsOrDefault opts.orientation "portrait"
    format := jsOrDefault opts.format "A4"
    margins := opts.margins.getD ⟨2, 2, 2, 2⟩
    bboxStored := none
    _map := none
    attachedMap := none
    viewListeners := 0
    sizeListeners := 0 }

/-- Result of a JS setter call: `thrown` is the message of the exception
raised, if any, and `state` is the receiver's state when the call returns
(unchanged when the throw happens before any mutation). -/
structure SetResult where
  thrown : Option String
  state : State
deriving Repr

/-- The message of `new Error` thrown by `set paperOrientation`; the
template literal renders `Object.values(ORIENTATION)` with commas. -/
def orientationErrorMsg : String :=
  "orientaion must be one of: " ++ String.intercalate "," (ORIENTATION.map Prod.snd)

/-- The message of `new Error` thrown by `set paperFormat`. -/
def formatErrorMsg : String :=
  "paperFormat must be on of: " ++ String.intercalate "," (PAPER_FORMAT.map Prod.snd)

/-- `set paperOrientation`: if `orientation.toUpperCase()` is a key of
`ORIENTATION`, store the *upper-cased* string, re-layout (DOM only), and
when a host map is attached force a render and recompute the bbox;
otherwise throw.  (`setElementSize` and `changed()` touch no modelled
state.) -/
def setPaperOrientation (env : Env) (s : State) (orientation : String) : SetResult :=
  if (ORIENTATION.map Prod.fst).contains (jsToUpperCase orientation) then
    let s1 := { s with orientation := jsToUpperCase orientation }
    let s2 := if s1.attachedMap.isSome then handleBboxChange env s1 else s1
    ⟨none, s2⟩
  else
    ⟨some orientationErrorMsg, s⟩

/-- `set paperFormat`: same pattern against `PAPER_FORMAT`. -/
def setPaperFormat (env : Env) (s : State) (paperFormat : String) : SetResult :=
  if (PAPER_FORMAT.map Prod.fst).contains (jsToUpperCase paperFormat) then
    let s1 := { s with format := jsToUpperCase paperFormat }
    let s2 := if s1.attachedMap.isSome then handleBboxChange env s1 else s1
    ⟨none, s2⟩
  else
    ⟨some formatErrorMsg, s⟩

/-- The per-field clamp in `set margins`:
`margins[key] = (margins[key] < 0) ? 0 : margins[key]`. -/
def clampField (x : ℚ) : ℚ :=
  if x < 0 then 0 else x

/-- `set margins`: a falsy argument (`undefined`/`null`, modelled `none`)
returns without any effect; otherwise each negative field is silently set
to 0, the record is stored, and (when attached) the bbox is recomputed. -/
def setMargins (env : Env) (s : State) (margins : Option Margins) : SetResult :=
  match margins with
  | none => ⟨none, s⟩
  | some m =>
    let clamped : Margins := ⟨clampField m.top, clampField m.bottom,
      clampField m.left, clampField m.right⟩
    let s1 := { s with margins := clamped }
    let s2 := if s1.attachedMap.isSome then handleBboxChange env s1 else s1
    ⟨none, s2⟩

/-- `get bbox`: `null` when no host map is attached; otherwise the stored
`bbox` property (the preceding `renderSync()` is a host-side render whose
effect on the property is already reflected in `bboxStored`). -/
def get_bbox (s : State) : Option Extent :=
  if s.attachedMap = none then none else s.bboxStored

/-- `get bboxAsLonLat`: re-project `bbox` when it is non-null (an extent
array is always truthy), else `null`. -/
def bboxAsLonLat (env : Env) (s : State) : Option Extent :=
  (get_bbox s).map env.transformExtent

/-- `getPrintBoxSizeInMM`: look the paper size up by the stored format
(`none` models the `TypeError` of destructuring `undefined` for an unknown
format) and subtract the margin sums (cm ×10), with the short edge as the
width exactly when the stored orientation equals `ORIENTATION.PORTRAIT`,
i.e. the lowercase string `'portrait'`. -/
def getPrintBoxSizeInMM (s : State) : Option (ℚ × ℚ) :=
  (PAPER_SIZE s.format).map fun p =>
    let short := p.1
    let long := p.2
    let horizontalMarginSum := (s.margins.left + s.margins.right) * 10
    let verticalMarginSum := (s.margins.top + s.margins.bottom) * 10
    if s.orientation = "portrait" then
      (short - horizontalMarginSum, long - verticalMarginSum)
    else
      (long - horizontalMarginSum, short - verticalMarginSum)

/-- JS `Math.round` on a (finite) number: half-up, `⌊x + 1/2⌋`. -/
def jsRound (q : ℚ) : ℤ :=
  ⌊q + 1 / 2⌋

/-- `getPrintBoxSizeInDots(dpi)`: convert the millimetre size to inches at
25.4 mm/inch, multiply by the dpi and round each dimension. -/
def getPrintBoxSizeInDots (s : State) (dpi : ℚ) : Option (ℤ × ℤ) :=
  (getPrintBoxSizeInMM s).map fun wh =>
    (jsRound (wh.1 / INCH2MM * dpi), jsRound (wh.2 / INCH2MM * dpi))

/-- `getPrintMapScaleDenominator`: `null` when `bboxAsLonLat` is; else the
haversine distance between the box's first and second coordinate pairs,
divided (with JS division semantics) by the printable width in metres —
with no guard on that width. -/
def getPrintMapScaleDenominator (env : Env) (s : State) : Option JsNum :=
  match bboxAsLonLat env s with
  | none => none
  | some b =>
    let horizontalDistanceInMeter := env.getDistance (b.1, b.2.1) (b.2.2.1, b.2.2.2)
    match getPrintBoxSizeInMM s with
    | none => none
    | some wh =>
      let widthInM := wh.1 / 1000
      some (jsDiv horizontalDistanceInMeter widthInM)

/-- `onRender`: on a render callback, if the held `_map` is null or
differs from the current `getMap()`, (re-)attach — store the map
reference, register the view-change and size-change listeners, perform the
initial layout and bbox computation.  If `getMap()` is null in that branch
the source dereferences null (`this.getMap()!.getView()`), modelled as
`none`.  Otherwise the callback does nothing. -/
def onRender (env : Env) (s : State) : Option State :=
  if s._map = none ∨ s._map ≠ s.attachedMap then
    match s.attachedMap with
    | none => none
    | some m =>
      some { s with
        _map := some m
        viewListeners := s.viewListeners + 1
        sizeListeners := s.sizeListeners + 1
        bboxStored := env.computeBboxResult }
  else
    some s

/-- A sequence of `n` render callbacks (propagating the crash case). -/
def renderN (env : Env) : Nat → State → Option State
  | 0, s => some s
  | n + 1, s => (onRender env s).bind (renderN env n)

/-- A trivial external environment for concrete evaluations: no DOM
geometry, identity re-projection, zero ground distance. -/
def env0 : Env := ⟨none, id, fun _ _ => 0⟩

/-- The margins invariant of claim C3: all four stored fields are
non-negative. -/
def marginsNonneg (m : Margins) : Prop :=
  0 ≤ m.top ∧ 0 ≤ m.bottom ∧ 0 ≤ m.left ∧ 0 ≤ m.right

/-- One public setter call, for quantifying over call sequences. -/
inductive Op where
  | orientationSet (env : Env) (o : String)
  | formatSet (env : Env) (f : String)
  | marginsSet (env : Env) (m : Option Margins)

/-- Execute one setter call; when the call throws, the state is the
unchanged one recorded in the `SetResult`. -/
def applyOp (s : State) : Op → State
  | Op.orientationSet env o => (setPaperOrientation env s o).state
  | Op.formatSet env f => (setPaperFormat env s f).state
  | Op.marginsSet env m => (setMargins env s m).state

theorem clampField_nonneg (x : ℚ) : 0 ≤ clampField x := by
  unfold clampField
  split
  · exact le_refl 0
  · exact le_of_not_lt (by assumption)

theorem clampField_eq_max (x : ℚ) : clampField x = max x 0 := by
  unfold clampField
  rcases lt_or_le x 0 with h | h
  · rw [if_pos h, max_eq_right h.le]
  · rw [if_neg (not_lt.mpr h), max_eq_left h]

theorem setPaperOrientation_margins (env : Env) (s : State) (o : String) :
    (setPaperOrientation env s o).state.margins = s.margins := by
  unfold setPaperOrientation
  by_cases hc : (ORIENTATION.map Prod.fst).contains (jsToUpperCase o) = true
  · rw [if_pos hc]
    dsimp only
    by_cases hm : s.attachedMap.isSome = true
    · rw [if_pos hm]; rfl
    · rw [if_neg hm]
  · rw [if_neg hc]

theorem setPaperFormat_margins (env : Env) (s : State) (f : String) :
    (setPaperFormat env s f).state.margins = s.margins := by
  unfold setPaperFormat
  by_cases hc : (PAPER_FORMAT.map Prod.fst).contains (jsToUpperCase f) = true
  · rw [if_pos hc]
    dsimp only
    by_cases hm : s.attachedMap.isSome = true
    · rw [if_pos hm]; rfl
    · rw [if_neg hm]
  · rw [if_neg hc]

theorem setMargins_some_margins (env : Env) (s : State) (m : Margins) :
    (setMargins env s (some m)).state.margins
      = ⟨clampField m.top, clampField m.bottom, clampField m.left, clampField m.right⟩ := by
  unfold setMargins
  dsimp only
  by_cases hm : s.attachedMap.isSome = true
  · rw [if_pos hm]; rfl
  · rw [if_neg hm]

theorem applyOp_marginsNonneg (s : State) (op : Op)
    (h : marginsNonneg s.margins) : marginsNonneg (applyOp s op).margins := by
  cases op with
  | orientationSet env o =>
      unfold applyOp
      rw [setPaperOrientation_margins]
      exact h
  | formatSet env f =>
      unfold applyOp
      rw [setPaperFormat_margins]
      exact h
  | marginsSet env m =>
      cases m with
      | none => exact h
      | some m =>
          unfold applyOp
          rw [setMargins_some_margins]
          exact ⟨clampField_nonneg _, clampField_nonneg _, clampField_nonneg _,
            clampField_nonneg _⟩

theorem foldl_marginsNonneg (ops : List Op) :
    ∀ s : State, marginsNonneg s.margins →
      marginsNonneg ((ops.foldl applyOp s).margins) := by
  induction ops with
  | nil => exact fun s h => h
  | cons op rest ih => exact fun s h => ih (applyOp s op) (applyOp_marginsNonneg s op h)

/-- Claim C1 (code bug, evaluated at the failing input): on a default A4
control with 2 cm margins, assigning `'landscape'` via the orientation
setter does make `getPrintBoxSizeInMM` take the width from the long edge
(257 = 297 − 40) with the margins unaltered; but assigning `'portrait'`
back stores the upper-cased `'PORTRAIT'`, which the getter's comparison
with `'portrait'` misses, so the width is still taken from the long edge
(257) instead of the short edge (170) that the claim requires — the
margins again unaltered. -/
theorem C1_orientation_round_trip_eval :
    getPrintBoxSizeInMM (mkPrintLayout {}) = some (170, 257) ∧
    (setPaperOrientation env0 (mkPrintLayout {}) "landscape").state.margins
      = (mkPrintLayout {}).margins ∧
    getPrintBoxSizeInMM ((setPaperOrientation env0 (mkPrintLayout {}) "landscape").state)
      = some (257, 170) ∧
    (setPaperOrientation env0
        ((setPaperOrientation env0 (mkPrintLayout {}) "landscape").state) "portrait").state.margins
      = (mkPrintLayout {}).margins ∧
    (setPaperOrientation env0
        ((setPaperOrientation env0 (mkPrintLayout {}) "landscape").state) "portrait").state.orientation
      = "PORTRAIT" ∧
    getPrintBoxSizeInMM ((setPaperOrientation env0
        ((setPaperOrientation env0 (mkPrintLayout {}) "landscape").state) "portrait").state)
      = some (257, 170) := by
  have h1 : (setPaperOrientation env0 (mkPrintLayout {}) "landscape").state
      = { mkPrintLayout {} with orientation := "LANDSCAPE" } := by rfl
  have h2 : (setPaperOrientation env0
      ((setPaperOrientation env0 (mkPrintLayout {}) "landscape").state) "portrait").state
      = { mkPrintLayout {} with orientation := "PORTRAIT" } := by rfl
  have hne1 : ¬ ("LANDSCAPE" = "portrait") := by decide
  have hne2 : ¬ ("PORTRAIT" = "portrait") := by decide
  refine ⟨?_, ?_, ?_, ?_, ?_, ?_⟩
  · norm_num [getPrintBoxSizeInMM, mkPrintLayout, jsOrDefault, PAPER_SIZE]
  · rw [h1]
  · rw [h1]
    norm_num [getPrintBoxSizeInMM, mkPrintLayout, jsOrDefault, PAPER_SIZE, hne1]
  · rw [h2]
  · rw [h2]
  · rw [h2]
    norm_num [getPrintBoxSizeInMM, mkPrintLayout, jsOrDefault, PAPER_SIZE, hne2]

/-- Claim C2 (code bug, evaluated at the failing input): the orientation
setter accepts `'portrait'` and the mixed-case `'Landscape'` without
throwing and rejects `'diagonal'` with the invalid-value error, as the
claim says; but the value it stores is the upper-cased string
(`'PORTRAIT'`/`'LANDSCAPE'`), which is not one of the canonical
known-orientation values `'portrait'`/`'landscape'`. -/
theorem C2_orientation_setter_uppercase_eval :
    (setPaperOrientation env0 (mkPrintLayout {}) "portrait").thrown = none ∧
    (setPaperOrientation env0 (mkPrintLayout {}) "portrait").state.orientation = "PORTRAIT" ∧
    "PORTRAIT" ∉ ORIENTATION.map Prod.snd ∧
    (setPaperOrientation env0 (mkPrintLayout {}) "Landscape").thrown = none ∧
    (setPaperOrientation env0 (mkPrintLayout {}) "Landscape").state.orientation = "LANDSCAPE" ∧
    "LANDSCAPE" ∉ ORIENTATION.map Prod.snd ∧
    (setPaperOrientation env0 (mkPrintLayout {}) "diagonal").thrown
      = some orientationErrorMsg := by
  refine ⟨rfl, rfl, by decide, rfl, rfl, by decide, rfl⟩

/-- Claim C3, counterexample: constructing the control with an options
record whose margins contain a negative field stores that negative value
unclamped — the constructor bypasses the margins setter — so the
non-negativity invariant fails in a reachable state. -/
theorem C3_construction_negative_margins_cex :
    (mkPrintLayout ⟨some ⟨-1, 2, 2, 2⟩, none, none⟩).margins.top < 0 := by
  norm_num [mkPrintLayout]

/-- Claim C3 as amended: provided the construction options carry no
negative margin field (or no margins at all), every state reached from the
constructor by any sequence of public setter calls has all four stored
margin fields non-negative. -/
theorem C3_margins_nonneg_amended (opts : Options) (ops : List Op)
    (h : ∀ m, opts.margins = some m → marginsNonneg m) :
    marginsNonneg ((ops.foldl applyOp (mkPrintLayout opts)).margins) := by
  apply foldl_marginsNonneg
  cases hm : opts.margins with
  | none =>
      have : (mkPrintLayout opts).margins = ⟨2, 2, 2, 2⟩ := by
        simp [mkPrintLayout, hm]
      rw [this]
      exact ⟨by norm_num, by norm_num, by norm_num, by norm_num⟩
  | some m =>
      have : (mkPrintLayout opts).margins = m := by
        simp [mkPrintLayout, hm]
      rw [this]
      exact h m hm

/-- Witness for `C3_margins_nonneg_amended`: non-negative construction
margins followed by a margins assignment with a negative field and an
orientation change. -/
theorem C3_margins_nonneg_amended_witness :
    (∀ m : Margins, (Options.mk (some ⟨1, 0, 2, 3⟩) none none).margins = some m →
      marginsNonneg m) ∧
    marginsNonneg ((([Op.marginsSet env0 (some ⟨-5, 1, 1, 1⟩),
        Op.orientationSet env0 "landscape"]).foldl applyOp
        (mkPrintLayout (Options.mk (some ⟨1, 0, 2, 3⟩) none none))).margins) := by
  have h : ∀ m : Margins, (Options.mk (some ⟨1, 0, 2, 3⟩) none none).margins = some m →
      marginsNonneg m := by
    intro m hm
    injection hm with hm
    rw [← hm]
    exact ⟨by norm_num, by norm_num, by norm_num, by norm_num⟩
  exact ⟨h, C3_margins_nonneg_amended (Options.mk (some ⟨1, 0, 2, 3⟩) none none) _ h⟩

/-- Claim C4 (confirmed): the margins setter is a silent no-op on a falsy
(`undefined`/`null`) argument — no state change, no error — and on a
four-field record it stores, errorless, `max field 0` for each field:
`0` for a negative input, the input itself otherwise. -/
theorem C4_setMargins_clamp (env : Env) (s : State) (m : Margins) :
    setMargins env s none = ⟨none, s⟩ ∧
    (setMargins env s (some m)).thrown = none ∧
    (setMargins env s (some m)).state.margins
      = ⟨max m.top 0, max m.bottom 0, max m.left 0, max m.right 0⟩ := by
  refine ⟨rfl, rfl, ?_⟩
  rw [setMargins_some_margins]
  rw [clampField_eq_max, clampField_eq_max, clampField_eq_max, clampField_eq_max]

/-- Claim C5 (confirmed): for any input whose upper-casing is not a key of
`ORIENTATION` the orientation setter throws the error naming the allowed
orientation values, and likewise the format setter against `PAPER_FORMAT`;
in both cases the state (configuration and everything derived from it) is
returned exactly as it was.  The last two conjuncts spell out that the
messages list the allowed sets. -/
theorem C5_invalid_setter_throws (env : Env) (s : State) (o f : String)
    (ho : (ORIENTATION.map Prod.fst).contains (jsToUpperCase o) = false)
    (hf : (PAPER_FORMAT.map Prod.fst).contains (jsToUpperCase f) = false) :
    setPaperOrientation env s o = ⟨some orientationErrorMsg, s⟩ ∧
    setPaperFormat env s f = ⟨some formatErrorMsg, s⟩ ∧
    orientationErrorMsg = "orientaion must be one of: portrait,landscape" ∧
    formatErrorMsg
      = "paperFormat must be on of: A4,A3,A2,A1,A0,LETTER,TABLOID,BROADSHEET" := by
  refine ⟨?_, ?_, by decide, by decide⟩
  · unfold setPaperOrientation
    rw [if_neg (by rw [ho]; exact Bool.false_ne_true)]
  · unfold setPaperFormat
    rw [if_neg (by rw [hf]; exact Bool.false_ne_true)]

/-- Witness for `C5_invalid_setter_throws`: the unknown orientation
`'diagonal'` and the unknown format `'A5'` on a fresh control. -/
theorem C5_invalid_setter_throws_witness :
    (ORIENTATION.map Prod.fst).contains (jsToUpperCase "diagonal") = false ∧
    (PAPER_FORMAT.map Prod.fst).contains (jsToUpperCase "A5") = false ∧
    setPaperOrientation env0 (mkPrintLayout {}) "diagonal"
      = ⟨some orientationErrorMsg, mkPrintLayout {}⟩ ∧
    setPaperFormat env0 (mkPrintLayout {}) "A5"
      = ⟨some formatErrorMsg, mkPrintLayout {}⟩ := by
  have h := C5_invalid_setter_throws env0 (mkPrintLayout {}) "diagonal" "A5"
    (by decide) (by decide)
  exact ⟨by decide, by decide, h.1, h.2.1⟩

/-- Claim C6 (confirmed): whenever no host map is attached
(`getMap()` is null), the `bbox` getter, the `bboxAsLonLat` getter and
`getPrintMapScaleDenominator` all return null — whatever the stored
format, orientation and margins. -/
theorem C6_no_map_null (env : Env) (s : State) (h : s.attachedMap = none) :
    get_bbox s = none ∧ bboxAsLonLat env s = none ∧
    getPrintMapScaleDenominator env s = none := by
  have h1 : get_bbox s = none := by simp [get_bbox, h]
  have h2 : bboxAsLonLat env s = none := by simp [bboxAsLonLat, h1]
  refine ⟨h1, h2, ?_⟩
  simp [getPrintMapScaleDenominator, h2]

/-- Witness for `C6_no_map_null`: the freshly constructed, unattached
control. -/
theorem C6_no_map_null_witness :
    (mkPrintLayout {}).attachedMap = none ∧
    get_bbox (mkPrintLayout {}) = none ∧
    bboxAsLonLat env0 (mkPrintLayout {}) = none ∧
    getPrintMapScaleDenominator env0 (mkPrintLayout {}) = none := by
  have h := C6_no_map_null env0 (mkPrintLayout {}) rfl
  exact ⟨rfl, h.1, h.2.1, h.2.2⟩

/-- Claim C7 (confirmed): with stored format `'A4'`, orientation
`'portrait'` and margins `{top: 2, bottom: 2, left: 2, right: 2}` cm,
`getPrintBoxSizeInMM` is `{width: 210 − 40 = 170, height: 297 − 40 = 257}`
and `getPrintBoxSizeInDots(192)` is `{width: round(170/25.4·192) = 1285,
height: round(257/25.4·192) = 1943}`. -/
theorem C7_A4_portrait_sizes (s : State) (hf : s.format = "A4")
    (ho : s.orientation = "portrait") (hm : s.margins = ⟨2, 2, 2, 2⟩) :
    getPrintBoxSizeInMM s = some (170, 257) ∧
    getPrintBoxSizeInDots s 192 = some (1285, 1943) := by
  have hmm : getPrintBoxSizeInMM s = some (170, 257) := by
    norm_num [getPrintBoxSizeInMM, hf, ho, hm, PAPER_SIZE]
  refine ⟨hmm, ?_⟩
  norm_num [getPrintBoxSizeInDots, hmm, INCH2MM, jsRound]

/-- Witness for `C7_A4_portrait_sizes`: the freshly constructed control,
whose defaults are exactly that configuration. -/
theorem C7_A4_portrait_sizes_witness :
    (mkPrintLayout {}).format = "A4" ∧
    (mkPrintLayout {}).orientation = "portrait" ∧
    (mkPrintLayout {}).margins = ⟨2, 2, 2, 2⟩ ∧
    getPrintBoxSizeInMM (mkPrintLayout {}) = some (170, 257) ∧
    getPrintBoxSizeInDots (mkPrintLayout {}) 192 = some (1285, 1943) := by
  have h := C7_A4_portrait_sizes (mkPrintLayout {}) rfl rfl rfl
  exact ⟨rfl, rfl, rfl, h.1, h.2⟩

/-- Claim C8, counterexample: `getPrintBoxSizeInDots` does not scale
linearly with dpi — on an A4 portrait control with zero margins, doubling
the dpi from 1 to 2 takes the width from 8 to 17 ≠ 2 · 8, because each
dimension is rounded to an integer after scaling. -/
theorem C8_dots_not_linear_cex :
    getPrintBoxSizeInDots (mkPrintLayout ⟨some ⟨0, 0, 0, 0⟩, none, none⟩) 1
      = some (8, 12) ∧
    getPrintBoxSizeInDots (mkPrintLayout ⟨some ⟨0, 0, 0, 0⟩, none, none⟩) 2
      = some (17, 23) ∧
    (17 : ℤ) ≠ 2 * 8 := by
  refine ⟨?_, ?_, by decide⟩ <;>
    norm_num [getPrintBoxSizeInDots, getPrintBoxSizeInMM, mkPrintLayout, jsOrDefault,
      PAPER_SIZE, INCH2MM, jsRound]

theorem abs_jsRound_sub_le (q : ℚ) : |(jsRound q : ℚ) - q| ≤ 1 / 2 := by
  have h1 : ((jsRound q : ℤ) : ℚ) ≤ q + 1 / 2 := by
    unfold jsRound
    exact Int.floor_le (q + 1 / 2)
  have h2 : q + 1 / 2 < ((jsRound q : ℤ) : ℚ) + 1 := by
    unfold jsRound
    exact Int.lt_floor_add_one (q + 1 / 2)
  rw [abs_le]
  constructor <;> linarith

/-- Claim C8 as amended: `getPrintBoxSizeInDots(dpi)` is the rounding of a
function exactly linear in dpi — each returned dimension equals
`round(sizeInMM/25.4 · dpi)` and so differs from the linear value
`sizeInMM/25.4 · dpi` by at most 1/2 — and at dpi = 0 both returned
dimensions are exactly 0.  Exact linearity of the returned integers fails
only by the rounding (see the counterexample). -/
theorem C8_dots_round_of_linear (s : State) (p : ℚ × ℚ)
    (hp : getPrintBoxSizeInMM s = some p) (dpi : ℚ) :
    getPrintBoxSizeInDots s dpi
      = some (jsRound (p.1 / INCH2MM * dpi), jsRound (p.2 / INCH2MM * dpi)) ∧
    |(jsRound (p.1 / INCH2MM * dpi) : ℚ) - p.1 / INCH2MM * dpi| ≤ 1 / 2 ∧
    |(jsRound (p.2 / INCH2MM * dpi) : ℚ) - p.2 / INCH2MM * dpi| ≤ 1 / 2 ∧
    getPrintBoxSizeInDots s 0 = some (0, 0) := by
  refine ⟨?_, abs_jsRound_sub_le _, abs_jsRound_sub_le _, ?_⟩
  · simp [getPrintBoxSizeInDots, hp]
  · simp [getPrintBoxSizeInDots, hp]
    norm_num [jsRound]

/-- Witness for `C8_dots_round_of_linear`: the default A4 portrait control
at 192 dpi. -/
theorem C8_dots_round_of_linear_witness :
    getPrintBoxSizeInMM (mkPrintLayout {}) = some (170, 257) ∧
    getPrintBoxSizeInDots (mkPrintLayout {}) 192
      = some (jsRound ((170 : ℚ) / INCH2MM * 192), jsRound ((257 : ℚ) / INCH2MM * 192)) ∧
    getPrintBoxSizeInDots (mkPrintLayout {}) 0 = some (0, 0) := by
  have hp : getPrintBoxSizeInMM (mkPrintLayout {}) = some (170, 257) := by
    norm_num [getPrintBoxSizeInMM, mkPrintLayout, jsOrDefault, PAPER_SIZE]
  have h := C8_dots_round_of_linear (mkPrintLayout {}) (170, 257) hp 192
  exact ⟨hp, h.1, h.2.2.2⟩

theorem onRender_attached (env : Env) (s : State) (m : Nat)
    (h1 : s._map = some m) (h2 : s.attachedMap = some m) :
    onRender env s = some s := by
  unfold onRender
  rw [if_neg]
  rw [h1, h2]
  simp

/-- Claim C9 (confirmed): a render callback that finds a host map
differing from the held reference attaches once — registering exactly one
view-change listener and exactly one size-change listener — and every
subsequent render callback observing the same host-map identity is a
no-op: however many renders follow, the state (listener registrations
included) is unchanged. -/
theorem C9_attach_registers_once (env : Env) (s : State) (m : Nat)
    (hatt : s.attachedMap = some m) (hnew : s._map ≠ some m) :
    ∃ s' : State, onRender env s = some s' ∧
      s'.viewListeners = s.viewListeners + 1 ∧
      s'.sizeListeners = s.sizeListeners + 1 ∧
      s'._map = some m ∧
      ∀ n : Nat, renderN env n s' = some s' := by
  have hguard : s._map ≠ s.attachedMap := by rw [hatt]; exact hnew
  have hstep : onRender env s = some { s with
      _map := some m
      viewListeners := s.viewListeners + 1
      sizeListeners := s.sizeListeners + 1
      bboxStored := env.computeBboxResult } := by
    unfold onRender
    rw [if_pos (Or.inr hguard), hatt]
  refine ⟨{ s with
      _map := some m
      viewListeners := s.viewListeners + 1
      sizeListeners := s.sizeListeners + 1
      bboxStored := env.computeBboxResult },
    hstep, rfl, rfl, rfl, ?_⟩
  intro n
  induction n with
  | zero => rfl
  | succ k ih =>
      have hfix : onRender env { s with
          _map := some m
          viewListeners := s.viewListeners + 1
          sizeListeners := s.sizeListeners + 1
          bboxStored := env.computeBboxResult }
          = some { s with
          _map := some m
          viewListeners := s.viewListeners + 1
          sizeListeners := s.sizeListeners + 1
          bboxStored := env.computeBboxResult } :=
        onRender_attached env _ m rfl hatt
      show (onRender env _).bind (renderN env k) = _
      rw [hfix]
      exact ih

/-- Witness for `C9_attach_registers_once`: a fresh control the framework
has just attached to map 0, before its first render callback. -/
theorem C9_attach_registers_once_witness :
    ({ mkPrintLayout {} with attachedMap := some 0 } : State).attachedMap = some 0 ∧
    ({ mkPrintLayout {} with attachedMap := some 0 } : State)._map ≠ some 0 ∧
    ∃ s' : State,
      onRender env0 { mkPrintLayout {} with attachedMap := some 0 } = some s' ∧
      s'.viewListeners
        = ({ mkPrintLayout {} with attachedMap := some 0 } : State).viewListeners + 1 ∧
      s'.sizeListeners
        = ({ mkPrintLayout {} with attachedMap := some 0 } : State).sizeListeners + 1 ∧
      s'._map = some 0 ∧
      ∀ n : Nat, renderN env0 n s' = some s' := by
  refine ⟨rfl, by decide, ?_⟩
  exact C9_attach_registers_once env0 _ 0 rfl (by decide)

/-- Claim C10 (confirmed): with a map attached and a stored bounding box,
when the ground distance along the box's lower edge is positive,
`getPrintMapScaleDenominator` divides it by the printable width with no
guard: a zero width from `getPrintBoxSizeInMM` yields `Infinity` and a
negative width yields a negative finite number — in neither case null or
an error. -/
theorem C10_scale_denominator_unguarded (env : Env) (s : State) (b : Extent)
    (p : ℚ × ℚ) (hmap : s.attachedMap ≠ none) (hbox : s.bboxStored = some b)
    (hmm : getPrintBoxSizeInMM s = some p)
    (hd : 0 < env.getDistance ((env.transformExtent b).1, (env.transformExtent b).2.1)
        ((env.transformExtent b).2.2.1, (env.transformExtent b).2.2.2)) :
    (p.1 = 0 → getPrintMapScaleDenominator env s = some JsNum.posInf) ∧
    (p.1 < 0 → ∃ q : ℚ, getPrintMapScaleDenominator env s = some (JsNum.finite q) ∧
      q < 0) := by
  have hb : bboxAsLonLat env s = some (env.transformExtent b) := by
    simp [bboxAsLonLat, get_bbox, hmap, hbox]
  have heq : getPrintMapScaleDenominator env s
      = some (jsDiv
        (env.getDistance ((env.transformExtent b).1, (env.transformExtent b).2.1)
          ((env.transformExtent b).2.2.1, (env.transformExtent b).2.2.2))
        (p.1 / 1000)) := by
    simp [getPrintMapScaleDenominator, hb, hmm]
  constructor
  · intro h0
    rw [heq, h0]
    simp only [zero_div]
    unfold jsDiv
    rw [if_pos rfl, if_pos hd]
  · intro hneg
    have hw : p.1 / 1000 < 0 := div_neg_of_neg_of_pos hneg (by norm_num)
    refine ⟨_, ?_, div_neg_of_pos_of_neg hd hw⟩
    rw [heq]
    unfold jsDiv
    rw [if_neg hw.ne]

/-- A concrete environment for the `C10` witness: identity re-projection
and constant ground distance 1 m. -/
def envW10 : Env := ⟨none, id, fun _ _ => 1⟩

/-- A concrete state for the `C10` witness: A4 portrait with margins
`{top: 2, bottom: 2, left: 21, right: 0}` cm, so the printable width is
`210 − (21 + 0)·10 = 0` mm, attached to map 0 with a stored bbox. -/
def sW10 : State :=
  { mkPrintLayout ⟨some ⟨2, 2, 21, 0⟩, none, none⟩ with
    attachedMap := some 0, bboxStored := some (0, 0, 1, 1) }

/-- Witness for `C10_scale_denominator_unguarded`: on `sW10` the printable
width is 0 and the scale denominator is `Infinity`, not null. -/
theorem C10_scale_denominator_unguarded_witness :
    sW10.attachedMap ≠ none ∧
    getPrintBoxSizeInMM sW10 = some (0, 257) ∧
    getPrintMapScaleDenominator envW10 sW10 = some JsNum.posInf := by
  have hmm : getPrintBoxSizeInMM sW10 = some (0, 257) := by
    norm_num [getPrintBoxSizeInMM, sW10, mkPrintLayout, jsOrDefault, PAPER_SIZE]
  have h := C10_scale_denominator_unguarded envW10 sW10 (0, 0, 1, 1) (0, 257)
    (by decide) rfl hmm (by norm_num [envW10])
  exact ⟨by decide, hmm, h.1 rfl⟩

end OlPrint
